import Mathlib

/-!
Shallow embedding of the URL construction, query-string assembly and
response handling of the two generated API client modules of this
repository: `src/github/src/gists.rs` (the `Gists` wrapper) and
`src/ramp/src/users.rs` (the `Users` wrapper).

Rust strings are embedded as lists of characters (`Str`); a Rust string
literal `"abc"` appears as `"abc".data`.  Fallible client calls are
embedded as `Except ClientError` inputs to the response-handling part of
each wrapper, and the observable result of a wrapper body (including a
possible panic from `Result::unwrap`) is an `Outcome`.
-/

abbrev Str := List Char

/-- Failure taxonomy of the shared client, as given by the specification:
transport-level failures, non-2xx HTTP responses, and decode mismatches. -/
inductive ClientError where
  | transport (msg : Str)
  | http (status : Nat) (body : Str)
  | decode (raw : Str) (cause : Str)
deriving DecidableEq

/-- Observable result of running a wrapper-method body on the result of the
inner client call: a returned value, a returned error, or a panic. -/
inductive Outcome (α : Type) where
  | ok (value : α)
  | err (e : ClientError)
  | panicked
deriving DecidableEq

/-- Models Rust `Result::unwrap()`: yields the value on `Ok`, panics on `Err`. -/
def rustUnwrap {α : Type} : Except ClientError α → Outcome α
  | Except.ok v => Outcome.ok v
  | Except.error _ => Outcome.panicked

/-- Models returning the inner client call's `Result` directly to the caller
(the `self.client.m(...).await` tail position of most wrapper bodies). -/
def ofResult {α : Type} : Except ClientError α → Outcome α
  | Except.ok v => Outcome.ok v
  | Except.error e => Outcome.err e

/-- Modelled from the spec: `crate::types::User` (ramp), a decoded typed
record defined in the crate's types module, which is not among the given
sources.  Its fields play no role in the claims, so it is kept opaque. -/
structure User where
  id : Str
deriving DecidableEq

/-- Modelled from the spec: `crate::types::GetUsersResponse` (ramp), the
wrapper envelope "containing a `data` field holding the actual collection
plus pagination metadata". -/
structure GetUsersResponse where
  data : List User
  page : Option Str
deriving DecidableEq

/-- Modelled from the spec: `crate::types::GistSimple` (github), a decoded
typed record, kept opaque. -/
structure GistSimple where
  id : Str
deriving DecidableEq

/-- A `chrono::DateTime<chrono::Utc>` value at whole-second precision
(zero nanoseconds, year rendered by the 4-digit `%Y` specifier). -/
structure DateTimeUtc where
  year : Nat
  month : Nat
  day : Nat
  hour : Nat
  minute : Nat
  second : Nat
deriving DecidableEq

/-- Two-digit zero-padded decimal rendering (`%m`, `%d`, `%H`, `%M`, `%S`). -/
def pad2 (n : Nat) : Str :=
  if n < 10 then '0' :: (toString n).data else (toString n).data

/-- Four-digit zero-padded decimal rendering (`%Y` for years 0-9999). -/
def pad4 (n : Nat) : Str :=
  if n < 10 then '0' :: '0' :: '0' :: (toString n).data
  else if n < 100 then '0' :: '0' :: (toString n).data
  else if n < 1000 then '0' :: (toString n).data
  else (toString n).data

/-- The `Display` rendering of `chrono::DateTime<chrono::Utc>`, which is what
Rust `format!("{}", since)` produces in the gists URL builders: naive date and
time separated by a space, followed by a space and the offset name `UTC`
(`%Y-%m-%d %H:%M:%S UTC`; the fractional part is absent at zero nanoseconds). -/
def chronoDisplay (dt : DateTimeUtc) : Str :=
  pad4 dt.year ++ "-".data ++ pad2 dt.month ++ "-".data ++ pad2 dt.day ++
    " ".data ++ pad2 dt.hour ++ ":".data ++ pad2 dt.minute ++ ":".data ++
    pad2 dt.second ++ " UTC".data

/-- Modelled from the spec: the canonical timestamp rendering the spec
prescribes, "ISO-8601 UTC with `Z` suffix (YYYY-MM-DDTHH:MM:SSZ)". -/
def iso8601Z (dt : DateTimeUtc) : Str :=
  pad4 dt.year ++ "-".data ++ pad2 dt.month ++ "-".data ++ pad2 dt.day ++
    "T".data ++ pad2 dt.hour ++ ":".data ++ pad2 dt.minute ++ ":".data ++
    pad2 dt.second ++ "Z".data

/-- The `Display` rendering of a Rust `i64` (decimal digits, `-` sign when
negative), used for the `page` and `per_page` arguments. -/
def i64Display (i : Int) : Str := (toString i).data

/-- Reserved characters named by the specification for path-segment
encoding: `/`, `?`, `#` and space. -/
def isReservedPathChar (c : Char) : Bool :=
  c == '/' || c == '?' || c == '#' || c == ' '

/-- Upper-case hexadecimal digit of a value below 16. -/
def hexDigit (n : Nat) : Char :=
  if n < 10 then Char.ofNat ('0'.toNat + n) else Char.ofNat ('A'.toNat + (n - 10))

/-- The `%XX` percent-escape of one character (ASCII range). -/
def percentEncodeChar (c : Char) : Str :=
  ['%', hexDigit (c.toNat / 16), hexDigit (c.toNat % 16)]

/-- Modelled from the spec: `crate::progenitor_support::encode_path` (defined
in the github crate's lib.rs, which is not among the given sources).  Per the
spec, an identifier segment is "percent-encoded independently (encoding `/`,
`?`, `#`, and other reserved characters) before substitution". -/
def encode_path : Str → Str
  | [] => []
  | c :: cs => (if isReservedPathChar c then percentEncodeChar c else [c]) ++ encode_path cs

/-- The query-argument assembly of `Users::get_users`
(src/ramp/src/users.rs lines 82-93): `department_id`, `location_id` and
`start` are pushed only when non-empty, `page_size` always.  The
`page_size: f64` argument is rendered by Rust `format!("{}", page_size)`;
that rendered text is taken here as the opaque string input `pageSize`,
since floating-point `Display` is outside the embedding. -/
def Users.get_users_query_args (start pageSize departmentId locationId : Str) : List Str :=
  (if departmentId.isEmpty then [] else ["department_id=".data ++ departmentId]) ++
    (if locationId.isEmpty then [] else ["location_id=".data ++ locationId]) ++
    ["page_size=".data ++ pageSize] ++
    (if start.isEmpty then [] else ["start=".data ++ start])

/-- The query-joining loop shared by `Users::get_users` and
`Users::get_all_users` (lines 94-99 and 130-135): arguments separated by a
single `&`. -/
def joinQuery : List Str → Str
  | [] => []
  | [x] => x
  | x :: y :: ys => x ++ '&' :: joinQuery (y :: ys)

/-- The URL built by `Users::get_users` (line 100):
`format!("/users?{}", query)`. -/
def Users.get_users_url (start pageSize departmentId locationId : Str) : Str :=
  "/users?".data ++ joinQuery (Users.get_users_query_args start pageSize departmentId locationId)

/-- The query-argument assembly of `Users::get_all_users` (lines 122-129):
only `department_id` and `location_id`, each pushed only when non-empty. -/
def Users.get_all_users_query_args (departmentId locationId : Str) : List Str :=
  (if departmentId.isEmpty then [] else ["department_id=".data ++ departmentId]) ++
    (if locationId.isEmpty then [] else ["location_id=".data ++ locationId])

/-- The URL built by `Users::get_all_users` (line 136):
`format!("/users?{}", query)`. -/
def Users.get_all_users_url (departmentId locationId : Str) : Str :=
  "/users?".data ++ joinQuery (Users.get_all_users_query_args departmentId locationId)

/-- The response handling of `Users::get_users` (lines 102-106): the inner
`self.client.get(&url, None).await` result is `.unwrap()`ed, then
`Ok(resp.data)` is returned.  A panic of the unwrap propagates. -/
def Users.get_users (resp : Except ClientError GetUsersResponse) : Outcome (List User) :=
  match rustUnwrap resp with
  | Outcome.ok r => Outcome.ok r.data
  | Outcome.err e => Outcome.err e
  | Outcome.panicked => Outcome.panicked

/-- The URL built by `Users::get_users_user_id` (line 27): the literal string
`"/users/<id>".to_string()`; the method takes no identifier argument. -/
def Users.get_users_user_id_url : Str := "/users/<id>".data

/-- The URL built by `Users::delete_users_id` (line 39). -/
def Users.delete_users_id_url : Str := "/users/<id>".data

/-- The URL built by `Users::patch_users_id` (line 51). -/
def Users.patch_users_id_url : Str := "/users/<id>".data

/-- The URL built by `Users::get_users_deferred_status_id` (line 171). -/
def Users.get_users_deferred_status_id_url : Str := "/users/deferred/status/<id>".data

/-- The body of `Gists::create` (src/github/src/gists.rs lines 57-68): the
inner `self.client.post(&url, ...).await` result is returned directly. -/
def Gists.create (resp : Except ClientError GistSimple) : Outcome GistSimple :=
  ofResult resp

/-- The URL built by `Gists::list` (lines 36-41):
`format!("/gists?page={}&per_page={}&since={}", page, per_page, since)`. -/
def Gists.list_url (since : DateTimeUtc) (perPage page : Int) : Str :=
  "/gists?page=".data ++ i64Display page ++ "&per_page=".data ++ i64Display perPage ++
    "&since=".data ++ chronoDisplay since

/-- The URL built by `Gists::get` (lines 148-151):
`format!("/gists/{}", encode_path(&gist_id.to_string()))`. -/
def Gists.get_url (gistId : Str) : Str :=
  "/gists/".data ++ encode_path gistId

/-- The URL built by `Gists::get_revision` (lines 522-526):
`format!("/gists/{}/{}", encode_path(gist_id), encode_path(sha))`. -/
def Gists.get_revision_url (gistId sha : Str) : Str :=
  "/gists/".data ++ encode_path gistId ++ "/".data ++ encode_path sha

/-- The URL built by `Gists::list_for_user` (lines 554-560):
`format!("/users/{}/gists?page={}&per_page={}&since={}", encode_path(username),
page, per_page, since)`. -/
def Gists.list_for_user_url (username : Str) (since : DateTimeUtc) (perPage page : Int) : Str :=
  "/users/".data ++ encode_path username ++ "/gists?page=".data ++ i64Display page ++
    "&per_page=".data ++ i64Display perPage ++ "&since=".data ++ chronoDisplay since

/-- One page of a paginated list endpoint: its items and an optional
continuation indicator (next-URL or cursor). -/
structure Page (α : Type) where
  items : List α
  next : Option Str

/-- Fuel-bounded page walk: fetches the page at `url` from `server`, follows
the continuation indicator while fuel remains, and returns the concatenated
items together with the number of page fetches issued. -/
def get_all_pages_from {α : Type} (server : Str → Page α) : Nat → Str → List α × Nat
  | 0, _ => ([], 0)
  | fuel + 1, url =>
    match (server url).next with
    | none => ((server url).items, 1)
    | some nextUrl =>
      ((server url).items ++ (get_all_pages_from server fuel nextUrl).1,
        (get_all_pages_from server fuel nextUrl).2 + 1)

/-- Modelled from the spec: the shared client's `get_all_pages` helper (it
lives outside the given sources; only its call sites appear here).  Per the
spec it repeatedly follows the continuation indicator and "must cap iteration
(configurable bound) to avoid unbounded loops on a misbehaving server that
always claims next page exists"; `bound` is that configurable cap.  The
second component of the result counts the page fetches issued. -/
def get_all_pages {α : Type} (bound : Nat) (server : Str → Page α) (url : Str) : List α × Nat :=
  get_all_pages_from server bound url

/-- A misbehaving server that always reports a continuation indicator. -/
def alwaysNextServer : Str → Page Unit :=
  fun url => { items := [], next := some url }

/-- Boolean test that `pat` occurs at the head of the second list. -/
def startsWithKey : Str → Str → Bool
  | [], _ => true
  | _ :: _, [] => false
  | a :: as, b :: bs => a == b && startsWithKey as bs

/-- Boolean test that `pat` occurs contiguously somewhere in the list. -/
def containsSeg (pat : Str) : Str → Bool
  | [] => pat.isEmpty
  | c :: rest => startsWithKey pat (c :: rest) || containsSeg pat rest

/-- The key of a rendered `key=value` query argument: its characters up to
the first `=`. -/
def queryKey (s : Str) : Str := s.takeWhile (fun c => c != '=')

/-- Boolean test that the first list of keys is a subsequence (order
preserved, elements possibly skipped) of the second. -/
def isKeySubseq : List Str → List Str → Bool
  | [], _ => true
  | _ :: _, [] => false
  | a :: as, b :: bs => if a == b then isKeySubseq as bs else isKeySubseq (a :: as) bs

/-! ## Helper lemmas -/

/-- A list starts with itself followed by anything. -/
theorem startsWithKey_append (k v : Str) : startsWithKey k (k ++ v) = true := by
  induction k with
  | nil => rfl
  | cons a as ih => simp [startsWithKey, ih]

/-- A list starts with itself. -/
theorem startsWithKey_refl (k : Str) : startsWithKey k k = true := by
  induction k with
  | nil => rfl
  | cons a as ih => simp [startsWithKey, ih]

/-- A list occurs contiguously in anything that ends with it. -/
theorem containsSeg_append_self (x p : Str) : containsSeg p (x ++ p) = true := by
  induction x with
  | nil =>
    cases p with
    | nil => rfl
    | cons c cs => simp [containsSeg, startsWithKey_refl]
  | cons a as ih => simp [containsSeg, ih]

/-- No character produced by `encode_path` is a raw reserved character:
reserved input characters are replaced by their `%XX` escape, whose
characters (`%`, digits, upper-case hex letters) are all unreserved. -/
theorem encode_path_all_unreserved (l : Str) :
    (encode_path l).all (fun c => !isReservedPathChar c) = true := by
  induction l with
  | nil => rfl
  | cons c cs ih =>
    simp only [encode_path, List.all_append, Bool.and_eq_true]
    refine ⟨?_, ih⟩
    by_cases h : isReservedPathChar c = true
    · have hc : ((c = '/' ∨ c = '?') ∨ c = '#') ∨ c = ' ' := by
        simpa only [isReservedPathChar, Bool.or_eq_true, beq_iff_eq] using h
      rcases hc with ((rfl | rfl) | rfl) | rfl <;> decide
    · simp [h]

/-- The fuel bound caps the number of page fetches for every server. -/
theorem get_all_pages_from_fetches_le {α : Type} (server : Str → Page α) :
    ∀ fuel url, (get_all_pages_from server fuel url).2 ≤ fuel := by
  intro fuel
  induction fuel with
  | zero => intro url; exact Nat.le_refl 0
  | succ n ih =>
    intro url
    cases h : (server url).next with
    | none => simp [get_all_pages_from, h]
    | some nextUrl =>
      simp only [get_all_pages_from, h]
      exact Nat.succ_le_succ (ih nextUrl)

/-! ## Claim theorems -/

/-- Claim C1 (code bug in `Users::get_users`): `Gists::create` returns the
inner failure as `Err` and the inner success unchanged, but `Users::get_users`
calls `.unwrap()` on the inner GET result and therefore panics on any failure
instead of returning it as `Err` to the caller. -/
theorem get_users_panics_instead_of_propagating :
    (∀ e : ClientError, Gists.create (Except.error e) = Outcome.err e)
    ∧ (∀ v : GistSimple, Gists.create (Except.ok v) = Outcome.ok v)
    ∧ (∀ e : ClientError, Users.get_users (Except.error e) = Outcome.panicked)
    ∧ (∀ e : ClientError, (Users.get_users (Except.error e) == Outcome.err e) = false) :=
  ⟨fun _ => rfl, fun _ => rfl, fun _ => rfl, fun _ => rfl⟩

/-- Claim C2: every identifier passed to the gists path-template methods is
inserted through `encode_path`, whose output contains no raw reserved
character (`/`, `?`, `#`, space); the identifier `"abc def"` resolves to the
path segment `"abc%20def"`. -/
theorem gists_path_identifiers_percent_encoded :
    (∀ gistId : Str,
        Gists.get_url gistId = "/gists/".data ++ encode_path gistId
        ∧ ((encode_path gistId).all (fun c => !isReservedPathChar c)) = true)
    ∧ (∀ gistId sha : Str,
        Gists.get_revision_url gistId sha =
          "/gists/".data ++ encode_path gistId ++ "/".data ++ encode_path sha)
    ∧ (∀ username : Str, ∀ since : DateTimeUtc, ∀ perPage page : Int,
        Gists.list_for_user_url username since perPage page =
          "/users/".data ++ encode_path username ++ "/gists?page=".data ++ i64Display page ++
            "&per_page=".data ++ i64Display perPage ++ "&since=".data ++ chronoDisplay since)
    ∧ Gists.get_url "abc def".data = "/gists/abc%20def".data :=
  ⟨fun gistId => ⟨rfl, encode_path_all_unreserved gistId⟩,
    fun _ _ => rfl, fun _ _ _ _ => rfl, by decide⟩

/-- Claim C4 (code bug in the ramp id endpoints): the URLs of
`Users::get_users_user_id`, `Users::delete_users_id`, `Users::patch_users_id`
and `Users::get_users_deferred_status_id` are the literal template strings;
the placeholder text `<id>` is never substituted (the methods accept no
identifier argument at all). -/
theorem ramp_id_placeholder_not_resolved :
    Users.get_users_user_id_url = "/users/<id>".data
    ∧ containsSeg "<id>".data Users.get_users_user_id_url = true
    ∧ Users.delete_users_id_url = "/users/<id>".data
    ∧ containsSeg "<id>".data Users.delete_users_id_url = true
    ∧ Users.patch_users_id_url = "/users/<id>".data
    ∧ containsSeg "<id>".data Users.patch_users_id_url = true
    ∧ Users.get_users_deferred_status_id_url = "/users/deferred/status/<id>".data
    ∧ containsSeg "<id>".data Users.get_users_deferred_status_id_url = true := by
  decide

/-- Claim C5 (code bug in the `since` rendering): at page 1, per_page 30 and
since 2014-11-28T12:00:09Z, `Gists::list` renders the integer parameters
canonically, but renders `since` through chrono's `Display` as
"2014-11-28 12:00:09 UTC" (space separators, " UTC" suffix), which differs
from the ISO-8601 `Z`-suffixed form the documentation prescribes. -/
theorem gists_list_since_not_iso8601 :
    Gists.list_url ⟨2014, 11, 28, 12, 0, 9⟩ 30 1 =
        "/gists?page=1&per_page=30&since=2014-11-28 12:00:09 UTC".data
    ∧ iso8601Z ⟨2014, 11, 28, 12, 0, 9⟩ = "2014-11-28T12:00:09Z".data
    ∧ (chronoDisplay ⟨2014, 11, 28, 12, 0, 9⟩ == iso8601Z ⟨2014, 11, 28, 12, 0, 9⟩) = false
    ∧ containsSeg " UTC".data (Gists.list_url ⟨2014, 11, 28, 12, 0, 9⟩ 30 1) = true := by
  refine ⟨by decide, by decide, by decide, by decide⟩

/-- Claim C6: on a successful inner GET, `Users::get_users` returns exactly
the `data` field of the decoded `GetUsersResponse` envelope. -/
theorem get_users_returns_envelope_data :
    ∀ env : GetUsersResponse, Users.get_users (Except.ok env) = Outcome.ok env.data :=
  fun _ => rfl

/-- Claim C8: `get_all_pages` issues at most `bound` page fetches against any
server, and against a server that always reports a continuation indicator it
stops after exactly `bound` fetches instead of looping forever. -/
theorem get_all_pages_fetches_bounded :
    (∀ (α : Type) (bound : Nat) (server : Str → Page α) (url : Str),
        (get_all_pages bound server url).2 ≤ bound)
    ∧ (∀ (bound : Nat) (url : Str), (get_all_pages bound alwaysNextServer url).2 = bound) := by
  constructor
  · intro α bound server url
    exact get_all_pages_from_fetches_le server bound url
  · intro bound
    induction bound with
    | zero => intro url; rfl
    | succ n ih =>
      intro url
      have h := ih url
      simp only [get_all_pages, get_all_pages_from, alwaysNextServer] at h ⊢
      omega

/-- Claim C10: with both filter values empty, `Users::get_all_users` requests
exactly "/users?", and the `?` separator is present in the URL for every
choice of filter values. -/
theorem get_all_users_url_empty_query :
    Users.get_all_users_url [] [] = "/users?".data
    ∧ ∀ departmentId locationId : Str,
        startsWithKey "/users?".data (Users.get_all_users_url departmentId locationId) = true :=
  ⟨rfl, fun _ _ => startsWithKey_append _ _⟩

/-- Claim C3: in both `Users::get_users` and `Users::get_all_users`, a query
parameter whose value is the empty string is omitted entirely from the
emitted argument list (count 0, so no `key=` is ever serialized), and a
parameter with a non-empty value is emitted exactly once, as `key=value`. -/
theorem empty_query_params_omitted :
    (∀ start pageSize departmentId locationId : Str,
      ((Users.get_users_query_args start pageSize departmentId locationId).countP
          (startsWithKey "department_id=".data) = if departmentId.isEmpty then 0 else 1)
      ∧ ((Users.get_users_query_args start pageSize departmentId locationId).countP
          (startsWithKey "location_id=".data) = if locationId.isEmpty then 0 else 1)
      ∧ ((Users.get_users_query_args start pageSize departmentId locationId).countP
          (startsWithKey "page_size=".data) = 1)
      ∧ ((Users.get_users_query_args start pageSize departmentId locationId).countP
          (startsWithKey "start=".data) = if start.isEmpty then 0 else 1)
      ∧ (departmentId.isEmpty = false →
          ("department_id=".data ++ departmentId) ∈
            Users.get_users_query_args start pageSize departmentId locationId)
      ∧ (locationId.isEmpty = false →
          ("location_id=".data ++ locationId) ∈
            Users.get_users_query_args start pageSize departmentId locationId)
      ∧ (("page_size=".data ++ pageSize) ∈
          Users.get_users_query_args start pageSize departmentId locationId)
      ∧ (start.isEmpty = false →
          ("start=".data ++ start) ∈
            Users.get_users_query_args start pageSize departmentId locationId))
    ∧ (∀ departmentId locationId : Str,
      ((Users.get_all_users_query_args departmentId locationId).countP
          (startsWithKey "department_id=".data) = if departmentId.isEmpty then 0 else 1)
      ∧ ((Users.get_all_users_query_args departmentId locationId).countP
          (startsWithKey "location_id=".data) = if locationId.isEmpty then 0 else 1)
      ∧ (departmentId.isEmpty = false →
          ("department_id=".data ++ departmentId) ∈
            Users.get_all_users_query_args departmentId locationId)
      ∧ (locationId.isEmpty = false →
          ("location_id=".data ++ locationId) ∈
            Users.get_all_users_query_args departmentId locationId))
    ∧ (∀ pageSize : Str,
        Users.get_users_url [] pageSize [] [] = "/users?page_size=".data ++ pageSize) := by
  refine ⟨fun s pS d l => ?_, fun d l => ?_, fun pS => rfl⟩
  · rcases d with _ | ⟨c₁, d⟩ <;> rcases l with _ | ⟨c₂, l⟩ <;> rcases s with _ | ⟨c₃, s⟩ <;>
      refine ⟨rfl, rfl, rfl, rfl, ?_, ?_, ?_, ?_⟩ <;>
      simp [Users.get_users_query_args]
  · rcases d with _ | ⟨c₁, d⟩ <;> rcases l with _ | ⟨c₂, l⟩ <;>
      refine ⟨rfl, rfl, ?_, ?_⟩ <;>
      simp [Users.get_all_users_query_args]

/-- Witness for C3 at start "s1", page_size text "10", department_id "d1",
location_id "": the non-empty department filter is emitted as `key=value`. -/
theorem empty_query_params_omitted_witness :
    "d1".data.isEmpty = false
    ∧ ("department_id=".data ++ "d1".data) ∈
        Users.get_users_query_args "s1".data "10".data "d1".data "".data :=
  ⟨by decide,
    (empty_query_params_omitted.1 "s1".data "10".data "d1".data "".data).2.2.2.2.1 (by decide)⟩

/-- Claim C7: URL construction is a deterministic function of the argument
values, and the emitted query keys always appear in one fixed relative order:
a subsequence of department_id, location_id, page_size, start for
`Users::get_users`, and literally page, per_page, since for `Gists::list`. -/
theorem url_construction_deterministic_fixed_order :
    (∀ s₁ pS₁ d₁ l₁ s₂ pS₂ d₂ l₂ : Str, s₁ = s₂ → pS₁ = pS₂ → d₁ = d₂ → l₁ = l₂ →
        Users.get_users_url s₁ pS₁ d₁ l₁ = Users.get_users_url s₂ pS₂ d₂ l₂)
    ∧ (∀ since₁ since₂ : DateTimeUtc, ∀ pp₁ p₁ pp₂ p₂ : Int,
        since₁ = since₂ → pp₁ = pp₂ → p₁ = p₂ →
        Gists.list_url since₁ pp₁ p₁ = Gists.list_url since₂ pp₂ p₂)
    ∧ (∀ s pS d l : Str,
        isKeySubseq ((Users.get_users_query_args s pS d l).map queryKey)
          ["department_id".data, "location_id".data, "page_size".data, "start".data] = true)
    ∧ (∀ since : DateTimeUtc, ∀ pp p : Int,
        Gists.list_url since pp p =
          "/gists?page=".data ++ i64Display p ++ "&per_page=".data ++ i64Display pp ++
            "&since=".data ++ chronoDisplay since) := by
  refine ⟨?_, ?_, ?_, fun since pp p => rfl⟩
  · rintro s₁ pS₁ d₁ l₁ s₂ pS₂ d₂ l₂ rfl rfl rfl rfl
    rfl
  · rintro since₁ since₂ pp₁ p₁ pp₂ p₂ rfl rfl rfl
    rfl
  · intro s pS d l
    rcases d with _ | ⟨c₁, d⟩ <;> rcases l with _ | ⟨c₂, l⟩ <;> rcases s with _ | ⟨c₃, s⟩ <;> rfl

/-- Witness for C7: two calls of `Users::get_users` with identical arguments
build the identical URL. -/
theorem url_construction_deterministic_fixed_order_witness :
    ("a".data = "a".data ∧ "1".data = "1".data ∧ "d".data = "d".data ∧ "l".data = "l".data)
    ∧ Users.get_users_url "a".data "1".data "d".data "l".data =
        Users.get_users_url "a".data "1".data "d".data "l".data :=
  ⟨⟨rfl, rfl, rfl, rfl⟩,
    url_construction_deterministic_fixed_order.1 "a".data "1".data "d".data "l".data
      "a".data "1".data "d".data "l".data rfl rfl rfl rfl⟩

/-- Claim C9: query-parameter values are interpolated into the URL verbatim,
with no percent-encoding: with all filters non-empty the `Users::get_users`
and `Users::get_all_users` URLs contain each value character-for-character,
and the `Gists::list` URL contains the chrono `Display` rendering of `since`
unchanged (spaces included). -/
theorem query_values_interpolated_verbatim :
    (∀ s pS d l : Str, d.isEmpty = false → l.isEmpty = false → s.isEmpty = false →
        Users.get_users_url s pS d l =
          "/users?department_id=".data ++ d ++ "&location_id=".data ++ l ++
            "&page_size=".data ++ pS ++ "&start=".data ++ s)
    ∧ (∀ d l : Str, d.isEmpty = false → l.isEmpty = false →
        Users.get_all_users_url d l =
          "/users?department_id=".data ++ d ++ "&location_id=".data ++ l)
    ∧ (∀ since : DateTimeUtc, ∀ pp p : Int,
        containsSeg (chronoDisplay since) (Gists.list_url since pp p) = true) := by
  have e₁ : "/users?department_id=".data = "/users?".data ++ "department_id=".data := rfl
  have e₂ : "&location_id=".data = '&' :: "location_id=".data := rfl
  have e₃ : "&page_size=".data = '&' :: "page_size=".data := rfl
  have e₄ : "&start=".data = '&' :: "start=".data := rfl
  refine ⟨?_, ?_, ?_⟩
  · intro s pS d l hd hl hs
    rcases d with _ | ⟨c₁, d⟩
    · exact absurd hd (by decide)
    rcases l with _ | ⟨c₂, l⟩
    · exact absurd hl (by decide)
    rcases s with _ | ⟨c₃, s⟩
    · exact absurd hs (by decide)
    rw [e₁, e₂, e₃, e₄]
    simp [Users.get_users_url, Users.get_users_query_args, joinQuery, List.append_assoc]
  · intro d l hd hl
    rcases d with _ | ⟨c₁, d⟩
    · exact absurd hd (by decide)
    rcases l with _ | ⟨c₂, l⟩
    · exact absurd hl (by decide)
    rw [e₁, e₂]
    simp [Users.get_all_users_url, Users.get_all_users_query_args, joinQuery, List.append_assoc]
  · intro since pp p
    have h : Gists.list_url since pp p =
        ("/gists?page=".data ++ i64Display p ++ "&per_page=".data ++ i64Display pp ++
          "&since=".data) ++ chronoDisplay since := by
      simp [Gists.list_url, List.append_assoc]
    rw [h]
    exact containsSeg_append_self _ _

/-- Witness for C9 at department_id "a&b", location_id "c#d", page_size text
"=", start "e f": every reserved character of each value survives verbatim. -/
theorem query_values_interpolated_verbatim_witness :
    ("a&b".data.isEmpty = false ∧ "c#d".data.isEmpty = false ∧ "e f".data.isEmpty = false)
    ∧ Users.get_users_url "e f".data "=".data "a&b".data "c#d".data =
        "/users?department_id=".data ++ "a&b".data ++ "&location_id=".data ++ "c#d".data ++
          "&page_size=".data ++ "=".data ++ "&start=".data ++ "e f".data :=
  ⟨⟨by decide, by decide, by decide⟩,
    query_values_interpolated_verbatim.1 "e f".data "=".data "a&b".data "c#d".data
      (by decide) (by decide) (by decide)⟩
